import Mathlib

/-!
Verification of the per-guild music playback session core of the DC-Bot
repository (`src/music_player.py`, command layer in `src/bot.py`).

The embedding translates, from the source:

* the raw resolver output handling and track construction of
  `MusicPlayer.add_to_queue` (music_player.py lines 323-384);
* the `player_loop` coroutine (lines 239-314) as a transition system whose
  program counter ranges over the coroutine's suspension points: the idle
  wait at line 252, the end-of-song wait at line 309, and the play-time
  resolution await at line 270 (`await YTDLSource.from_url`, where a track
  has already been popped but streaming has not started — the fallback
  extraction await at lines 283-285 sits at the same position), plus
  termination.  Commands can interleave at each suspension; the code
  between suspensions runs atomically;
* the `skip` / `stop` / `cleanup` / `set_volume` operations
  (lines 386-416) and their command-layer wrappers in bot.py;
* the per-guild registry `bot.music_players` with the timeout-triggered
  cleanup path and the periodic `check_voice_connections` sweep.

External effects are made explicit parameters: the resolver outcome of an
enqueue is an input (`ExtractOutcome`), and whether starting playback of a
popped track succeeds is an oracle `playsOk : Track → Bool` (it covers both
the `YTDLSource.from_url` resolution at play time and the ffmpeg stream
start).  `voice_client.play` raising `ClientException` when the client is
already playing is modelled by the `!streaming` conjunct of the play
condition; that exception is caught by the same `except` handler as a
resolution failure (line 303) and follows the same discard path.
-/

namespace DCBot

/-! ### String constants appearing in the source -/

def strUnknownTitle : String := "Unknown title"

def strAuthNeedle1 : String := "Sign in to confirm"

def strAuthNeedle2 : String := "Please sign in"

def strAuthMsg : String := "YouTube requires authentication. Please check your cookies.txt file."

def strCouldNotProcess : String := "Could not process "

def strColonSep : String := ": "

def strNoMatch : String := "Could not find any matching songs."

/-- Python's `needle in hay` substring test. -/
def strContains (hay needle : String) : Bool :=
  (hay.splitOn needle).length != 1

/-! ### Resolver output and track construction -/

/-- The value found under the `duration` key of a yt-dlp info dictionary:
absent/None, an int, a float (yt-dlp reports float durations for some
extractors; modelled by its exact rational value, which is faithful here
because the code performs no arithmetic on it), or a string
(music_player.py lines 347-355 branch on exactly these shapes: `None`,
`isinstance(..., str)`, and everything else kept verbatim). -/
inductive PyDuration where
  | noneVal : PyDuration
  | intVal (n : Int) : PyDuration
  | floatVal (q : ℚ) : PyDuration
  | strVal (s : String) : PyDuration
  deriving DecidableEq, Repr

/-- Value of a digit string, most significant digit first. -/
def digitsVal (cs : List Char) : Nat :=
  cs.foldl (fun a c => a * 10 + (c.toNat - 48)) 0

/-- ASCII whitespace stripped by Python's `int(str)` around the numeral. -/
def pyWs (c : Char) : Bool :=
  c = ' ' || c = '\t' || c = '\n' || c = '\r' || c = '\x0b' || c = '\x0c'

/-- Continuation of a digit run in Python's integer grammar: after a digit,
either another digit, or a single underscore that must be followed by a
digit (`1_0` parses, `1__0`, `1_` and `_1` do not). -/
def digitsGroupedTail : List Char → Bool
  | [] => true
  | '_' :: [] => false
  | '_' :: c :: rest => c.isDigit && digitsGroupedTail rest
  | c :: rest => c.isDigit && digitsGroupedTail rest

/-- A non-empty digit run with Python's underscore grouping. -/
def digitsGrouped : List Char → Bool
  | [] => false
  | c :: rest => c.isDigit && digitsGroupedTail rest

/-- Python's `int(s)` on a string over the ASCII alphabet: surrounding
whitespace is stripped, then an optional sign followed by a non-empty
digit run with underscore grouping parses; anything else raises
`ValueError` (modelled as `none`).  This is exact for strings made of
ASCII digits, sign, underscore and whitespace; non-ASCII numerals
(Unicode digits and spaces, which CPython also accepts) are outside the
model and fall to the error case — the theorems about duration strings
therefore restrict themselves to the ASCII alphabet. -/
def pyToInt (s : String) : Option Int :=
  let cs := ((s.toList.dropWhile pyWs).reverse.dropWhile pyWs).reverse
  match cs with
  | [] => Option.none
  | c :: rest =>
    let body := if c = '-' || c = '+' then rest else c :: rest
    if digitsGrouped body then
      let v : Int := (digitsVal (body.filter (fun ch => ch != '_')) : Int)
      Option.some (if c = '-' then -v else v)
    else Option.none

/-- The characters for which `pyToInt` is exactly Python's `int(str)`. -/
def asciiNumChar (c : Char) : Bool :=
  c.isDigit || c = '-' || c = '+' || c = '_' || pyWs c

/-- Duration normalisation of `add_to_queue` (music_player.py lines 347-355):
`None` becomes 0, a string is parsed with `int(...)` falling back to 0 on
`ValueError`, and any other number (int or float) is kept verbatim.  The
result is the numeric value stored in `song_info`, represented in `ℚ`. -/
def processDuration : PyDuration → ℚ
  | PyDuration.noneVal => 0
  | PyDuration.intVal n => (n : ℚ)
  | PyDuration.floatVal q => q
  | PyDuration.strVal s => (((pyToInt s).getD 0 : Int) : ℚ)

/-- The fields of the yt-dlp info dictionary that `add_to_queue` reads
(after the `entries` unwrapping).  `Option.none` models an absent key. -/
structure RawData where
  url : Option String
  title : Option String
  duration : PyDuration
  webpage_url : Option String
  thumbnail : Option String
  deriving DecidableEq, Repr

/-- The `song_info` dictionary built at music_player.py lines 358-365.
`duration` holds the numeric value kept by the code (an int, or a float
reported verbatim by the resolver), represented in `ℚ`. -/
structure Track where
  url : Option String
  title : String
  duration : ℚ
  webpage_url : Option String
  thumbnail : Option String
  requester : String
  deriving DecidableEq, Repr

/-- Track construction of `add_to_queue` (lines 358-365): `url` falls back
to `webpage_url`, `title` defaults to the sentinel, the duration is the
normalised one, `requester` is `self.ctx.author.name`. -/
def mkSongInfo (d : RawData) (req : String) : Track :=
  { url := match d.url with
      | Option.some u => Option.some u
      | Option.none => d.webpage_url
    title := d.title.getD strUnknownTitle
    duration := processDuration d.duration
    webpage_url := d.webpage_url
    thumbnail := d.thumbnail
    requester := req }

/-- Outcome of `ytdl.extract_info` as observed by `add_to_queue` after the
`entries` unwrapping: an exception (with its message), a falsy result
(line 344 `if not data`), or an info dictionary. -/
abbrev ExtractOutcome := Except String (Option RawData)

/-! ### Session state -/

/-- Program counter of the `player_loop` coroutine: suspended in the
5-minute idle wait (line 252), suspended in the end-of-song wait
(line 309), suspended inside the play-time resolution of an
already-popped track (the `await YTDLSource.from_url` at line 270, or
equally the fallback `run_in_executor` at lines 283-285: the pop at
line 259 has run, `current` holds the track, streaming has not started),
or terminated (returned through `cleanup`, or cancelled).  The remaining
awaits of the body (the `ctx.send` status messages at lines 298-300)
occur after streaming has started and expose the same observable fields
as the line-309 wait. -/
inductive LoopPC where
  | idleWaiting : LoopPC
  | songWaiting : LoopPC
  | resolving : LoopPC
  | terminated : LoopPC
  deriving DecidableEq, Repr

/-- State of one `MusicPlayer` together with the observable part of its
voice client.  `nextEv` is the `asyncio.Event` `self.next`; `streaming` is
`voice_client.is_playing()`; `connected` is whether a live voice client is
attached.  `played` and `failedTracks` record, in order, the tracks whose
streaming was started and the tracks discarded through the error path at
lines 303-307 (each of which produces a tenant-visible error message). -/
structure MP where
  queue : List Track
  current : Option Track
  nextEv : Bool
  streaming : Bool
  connected : Bool
  volume : ℚ
  pc : LoopPC
  played : List Track
  failedTracks : List Track
  deriving DecidableEq, Repr

/-- A freshly created `MusicPlayer` (constructor, lines 229-237) whose loop
task has been scheduled once: the loop cleared the event, found the queue
empty and suspended at line 252. -/
def initMP : MP :=
  { queue := []
    current := Option.none
    nextEv := false
    streaming := false
    connected := true
    volume := (1 : ℚ) / 2
    pc := LoopPC.idleWaiting
    played := []
    failedTracks := [] }

/-! ### The player loop

`runFromTop` executes loop iterations starting at line 243 (so the first
action is `self.next.clear()`), until the coroutine suspends.  A popped
track is streamed only when a voice client is attached, nothing is already
streaming (otherwise `voice_client.play` raises `ClientException`), and the
oracle grants the resolution/stream start; any failure takes the handler at
lines 303-307: report, `_song_finished(None)` (which sets the event), and
`continue`. -/

/-- The iterations of the loop, structurally recursive over the queue
(`ts` is always `s.queue` at the call site; each iteration pops its head,
so the recursion is bounded by the queue length). -/
def loopIters (playsOk : Track → Bool) : List Track → MP → MP
  | [], s =>
    -- line 244 clear, line 248 queue empty: suspend in the idle wait
    { s with nextEv := false, queue := [], pc := LoopPC.idleWaiting }
  | t :: rest, s =>
    -- line 244 clear, line 259 pop
    let s1 : MP := { s with nextEv := false, current := Option.some t, queue := rest }
    if s1.connected && !s1.streaming && playsOk t then
      -- stream started; the event was cleared this iteration, so the
      -- line 309 wait suspends
      { s1 with streaming := true, played := s1.played ++ [t], pc := LoopPC.songWaiting }
    else
      -- lines 303-307: report, discard, set the event, continue
      loopIters playsOk rest { s1 with failedTracks := s1.failedTracks ++ [t], nextEv := true }

def runFromTop (playsOk : Track → Bool) (s : MP) : MP :=
  loopIters playsOk s.queue s

/-- Resumption at line 252 after the event was set while the coroutine was
suspended in the idle wait.  Nothing has cleared the event since line 244
of the suspended iteration, so it is still set: if a track is popped and
streamed, the line 309 wait falls through immediately and the next
iteration runs. -/
def runFrom258 (playsOk : Track → Bool) (s : MP) : MP :=
  match s.queue with
  | [] =>
    -- line 258 false; line 309 wait returns at once iff the event is set
    if s.nextEv then runFromTop playsOk s else { s with pc := LoopPC.songWaiting }
  | t :: rest =>
    let s1 : MP := { s with current := Option.some t, queue := rest }
    if s1.connected && !s1.streaming && playsOk t then
      let s2 : MP := { s1 with streaming := true, played := s1.played ++ [t] }
      if s2.nextEv then runFromTop playsOk s2 else { s2 with pc := LoopPC.songWaiting }
    else
      runFromTop playsOk { s1 with failedTracks := s1.failedTracks ++ [t], nextEv := true }

/-- Scheduling the loop task: it runs iff it is suspended on the event and
the event is set, resuming at the suspension recorded by `pc`. -/
def wake (playsOk : Track → Bool) (s : MP) : MP :=
  if s.nextEv then
    match s.pc with
    | LoopPC.idleWaiting => runFrom258 playsOk s
    | LoopPC.songWaiting => runFromTop playsOk s
    | LoopPC.resolving => s
      -- mid-resolution the coroutine is not waiting on the event; it
      -- resumes only when the resolution completes (resumeFromResolving)
    | LoopPC.terminated => s
  else s

/-- Refinement of the loop body around its mid-iteration suspension: from
line 258 (the event state is whatever the entry path left — still set on
a wake from the idle wait, cleared on a fall-through from line 244), the
loop pops the head of the queue (line 259) and suspends inside
`YTDLSource.from_url` (line 270).  On an empty queue it behaves like the
iteration top. -/
def popToResolving (s : MP) : MP :=
  match s.queue with
  | [] => { s with nextEv := false, queue := [], pc := LoopPC.idleWaiting }
  | t :: rest => { s with current := Option.some t, queue := rest, pc := LoopPC.resolving }

/-- The coroutine resumes after the play-time resolution of the popped
track (held in `current`) completes: lines 273-309.  The track is
streamed only if a voice client is attached, nothing is already playing
and the oracle grants the start; otherwise the lines 303-307 handler
reports and discards it and the loop continues.  Composing
`popToResolving` with this function gives exactly the atomic pop-and-play
of `runFrom258` / `loopIters`, so those remain the no-interleaving
executions. -/
def resumeFromResolving (playsOk : Track → Bool) (s : MP) : MP :=
  match s.current with
  | Option.none => s
    -- unreachable: in the resolving suspension a track was just popped
  | Option.some t =>
    if s.connected && !s.streaming && playsOk t then
      let s2 : MP := { s with streaming := true, played := s.played ++ [t] }
      if s2.nextEv then loopIters playsOk s2.queue s2
      else { s2 with pc := LoopPC.songWaiting }
    else
      loopIters playsOk s.queue
        { s with failedTracks := s.failedTracks ++ [t], nextEv := true }

/-! ### Operations -/

/-- `MusicPlayer.add_to_queue` (lines 323-384), given the outcome of the
`ytdl.extract_info` call (the query has already been normalised with the
`ytsearch:` prefix where needed).  On success the track is appended and the
event is set when nothing is streaming (line 371); on any failure the
exception is wrapped by the inner handler (lines 376-380) and wrapped again
by the outer one (lines 382-384), and no session state is touched. -/
def addToQueue (s : MP) (query req : String) (r : ExtractOutcome) :
    MP × Except String Track :=
  match r with
  | Except.error e =>
    let inner : String :=
      if strContains e strAuthNeedle1 || strContains e strAuthNeedle2 then strAuthMsg
      else strCouldNotProcess ++ query ++ strColonSep ++ e
    (s, Except.error (strCouldNotProcess ++ query ++ strColonSep ++ inner))
  | Except.ok Option.none =>
    (s, Except.error (strCouldNotProcess ++ query ++ strColonSep ++
      (strCouldNotProcess ++ query ++ strColonSep ++ strNoMatch)))
  | Except.ok (Option.some d) =>
    let t : Track := mkSongInfo d req
    let s1 : MP := { s with queue := s.queue ++ [t] }
    let s2 : MP := if !s1.streaming then { s1 with nextEv := true } else s1
    (s2, Except.ok t)

/-- The state mutation of a completed `add_to_queue` call (the command
handler only signals the loop; it does not run it). -/
def enqueueDone (s : MP) (query req : String) (r : ExtractOutcome) : MP :=
  (addToQueue s query req r).1

/-- The `after` callback `_song_finished` (lines 316-321) fired when the
current stream ends (naturally, or because `voice_client.stop()` was
called): the sink stops streaming and the event is set. -/
def songFinished (s : MP) : MP :=
  { s with streaming := false, nextEv := true }

/-- A natural end of the current song followed by the loop being
scheduled. -/
def onFinish (playsOk : Track → Bool) (s : MP) : MP :=
  wake playsOk (songFinished s)

/-- `MusicPlayer.stop` (lines 392-397): clear the queue; if a voice client
is attached and playing, `voice_client.stop()`, whose `after` callback sets
the event. -/
def stopMut (s : MP) : MP :=
  let s1 : MP := { s with queue := [] }
  if s1.connected && s1.streaming then
    { s1 with streaming := false, nextEv := true }
  else s1

/-- The `stop` command: the player mutation followed by the loop being
scheduled (a no-op unless the event is set). -/
def onStop (playsOk : Track → Bool) (s : MP) : MP :=
  wake playsOk (stopMut s)

/-- Reply of the `skip` command handler (bot.py lines 302-316). -/
inductive SkipOutcome where
  | skipped : SkipOutcome
  | nothingToSkip : SkipOutcome
  deriving DecidableEq, Repr

/-- The `skip` command (bot.py lines 302-316 wrapping `MusicPlayer.skip`,
music_player.py lines 386-390): with no voice client or nothing playing it
replies with the rejection and touches nothing; otherwise
`voice_client.stop()` fires the `after` callback and the loop is
scheduled. -/
def skipCommand (playsOk : Track → Bool) (s : MP) : MP × SkipOutcome :=
  if s.connected && s.streaming then
    (wake playsOk { s with streaming := false, nextEv := true }, SkipOutcome.skipped)
  else
    (s, SkipOutcome.nothingToSkip)

/-- `MusicPlayer.cleanup` (lines 399-409): clear the queue, cancel the loop
task unless already cancelled, disconnect the voice client if attached
(which also stops any stream). -/
def cleanupMP (s : MP) : MP :=
  { s with queue := [], streaming := false, connected := false,
           pc := LoopPC.terminated }

/-- Expiry of the 5-minute idle timeout (line 251): it can only fire while
the coroutine is suspended in the idle wait, and then the loop returns
through `cleanup` (lines 253-255). -/
def onTimeout (s : MP) : MP :=
  if s.pc = LoopPC.idleWaiting then cleanupMP s else s

/-- `MusicPlayer.set_volume` (lines 411-416): clamp into `[0, 1]`. -/
def setVolume (s : MP) (v : ℚ) : MP :=
  { s with volume := max 0 (min 1 v) }

/-! ### Bot-level registry -/

/-- The per-guild registry `bot.music_players` (a dict guild id → player),
modelled as an association list. -/
structure BotState where
  players : List (Nat × MP)
  deriving DecidableEq

/-- Association-list lookup, modelling dictionary access (the keys of a
Python dict are unique, so first-match lookup is dictionary lookup). -/
def lookupList (l : List (Nat × MP)) (g : Nat) : Option MP :=
  match l with
  | [] => Option.none
  | e :: rest => if e.1 = g then Option.some e.2 else lookupList rest g

/-- Dictionary lookup in the registry. -/
def lookupReg (b : BotState) (g : Nat) : Option MP :=
  lookupList b.players g

/-- The idle timeout firing in guild `g`: the loop of that guild's player
runs `cleanup` and returns.  Note that nothing on this path removes the
entry from `bot.music_players`. -/
def botTimeout (b : BotState) (g : Nat) : BotState :=
  { players := b.players.map (fun e => if e.1 = g then (e.1, onTimeout e.2) else e) }

/-- The periodic `check_voice_connections` sweep (bot.py lines 75-94): every
player whose voice client is gone or disconnected is cleaned up and popped
from the registry. -/
def checkVoiceConnections (b : BotState) : BotState :=
  { players := b.players.filter (fun e => e.2.connected) }

/-! ### Concrete sample data used by the closed theorems below -/

def strSongA : String := "songA"

def strSongB : String := "songB"

def strReqA : String := "alice"

def strReqB : String := "bob"

def strQ : String := "query"

def rawA : RawData :=
  { url := Option.some strSongA, title := Option.some strSongA,
    duration := PyDuration.intVal 180, webpage_url := Option.none,
    thumbnail := Option.none }

def rawB : RawData :=
  { url := Option.some strSongB, title := Option.some strSongB,
    duration := PyDuration.intVal 200, webpage_url := Option.none,
    thumbnail := Option.none }

def trackA : Track := mkSongInfo rawA strReqA

def trackB : Track := mkSongInfo rawB strReqB

/-- Oracle granting every stream start. -/
def anyPlays : Track → Bool := fun _ => true

/-- Oracle denying every stream start. -/
def noPlays : Track → Bool := fun _ => false

/-- Idle session after two `add_to_queue` calls complete, in order, before
the loop task is next scheduled (both enqueues see `is_playing() == false`
and set the event; this is the schedule where the second resolution
finishes while the loop is still suspended or mid-start). -/
def c1AfterBoth : MP :=
  enqueueDone (enqueueDone initMP strSongA strReqA (Except.ok (Option.some rawA)))
    strSongB strReqB (Except.ok (Option.some rawB))

/-- The loop task then runs. -/
def c1Woken : MP := wake anyPlays c1AfterBoth

/-- ... and the first song eventually ends. -/
def c1Finished : MP := onFinish anyPlays c1Woken

/-- A session that enqueued one playable track and whose loop then ran:
the track is streaming, and (because the event set at enqueue time was
never cleared before the line 309 wait) the loop has already spun through
an extra iteration and is suspended back in the idle wait. -/
def c7Playing : MP :=
  wake anyPlays (enqueueDone initMP strSongA strReqA (Except.ok (Option.some rawA)))

/-- The same session after the `stop` command. -/
def c7Stopped : MP := onStop anyPlays c7Playing

/-- A registry holding a single idle session for guild 1. -/
def botSolo : BotState := { players := [(1, initMP)] }

/-- Resolver report with a negative numeric duration. -/
def rawNeg : RawData :=
  { url := Option.none, title := Option.none, duration := PyDuration.intVal (-5),
    webpage_url := Option.none, thumbnail := Option.none }

/-- Resolver report with a non-negative duration and no title. -/
def rawPos : RawData :=
  { url := Option.none, title := Option.none, duration := PyDuration.intVal 7,
    webpage_url := Option.none, thumbnail := Option.none }

/-- Whether the resolver-reported duration is certainly non-negative:
missing, a non-negative number (int or float), or a duration string over
the ASCII numeral alphabet (on which `pyToInt` is exactly Python's
`int()`) that does not parse to a negative value.  Strings containing
non-ASCII numerals are not accepted, since the model does not parse
them. -/
def durationSourceNonNeg : PyDuration → Bool
  | PyDuration.noneVal => true
  | PyDuration.intVal n => decide (0 ≤ n)
  | PyDuration.floatVal q => decide (0 ≤ q)
  | PyDuration.strVal sv =>
    sv.toList.all asciiNumChar && decide (0 ≤ (pyToInt sv).getD 0)

/-- A playing session used as a witness state: one playable track enqueued
and the loop scheduled. -/
def c3Playing : MP :=
  wake anyPlays (enqueueDone initMP strSongB strReqB (Except.ok (Option.some rawB)))

/-- A session caught mid-iteration: one track was enqueued while idle, the
loop woke at line 252, popped it at line 259 and is now suspended inside
the `YTDLSource.from_url` await at line 270 (nothing streaming yet; the
event, set by the enqueue, has not been cleared). -/
def c3Resolving : MP :=
  popToResolving (enqueueDone initMP strSongA strReqA (Except.ok (Option.some rawA)))

/-- The same session right after a `stop` command issued during that
resolution: the queue (already empty) is cleared, and `voice_client.stop()`
is skipped because `is_playing()` is false. -/
def c3AfterStop : MP := onStop anyPlays c3Resolving

/-- ... and after the resolution then completes: `voice_client.play`
starts the popped track. -/
def c3AfterResolve : MP := resumeFromResolving anyPlays c3AfterStop

/-- Python parses a whitespace-padded negative numeral. -/
def strWsNeg : String := " -5"

/-- Python parses underscore-grouped numerals. -/
def strGrouped : String := "1_0"

/-- A session suspended in the end-of-song wait, streaming `trackA`, with
`trackB` still queued (the loop popped and started the head of a two-track
queue). -/
def c4Playing1 : MP := runFromTop anyPlays { initMP with queue := [trackA, trackB] }

/-- A session suspended in the end-of-song wait, streaming `trackB`, with
an empty queue. -/
def c4Playing2 : MP := runFromTop anyPlays { initMP with queue := [trackB] }

/-- An idle-suspended session with one pending track and the event set. -/
def c6Start : MP := { initMP with queue := [trackA], nextEv := true }

/-! ### Helper lemmas -/

/-- Driving the loop over a queue of tracks that all fail to start: every
track is popped, reported and discarded (none is re-queued and none is
played), and the loop ends suspended in the idle wait. -/
lemma loopIters_allFail (playsOk : Track → Bool) (ts : List Track) :
    ∀ s : MP, (∀ t ∈ ts, playsOk t = false) →
      s.streaming = false → s.connected = true →
      (loopIters playsOk ts s).queue = [] ∧
      (loopIters playsOk ts s).pc = LoopPC.idleWaiting ∧
      (loopIters playsOk ts s).failedTracks = s.failedTracks ++ ts ∧
      (loopIters playsOk ts s).played = s.played ∧
      (loopIters playsOk ts s).streaming = false := by
  induction ts with
  | nil =>
    rintro ⟨q, c, ne, st, cn, v, pc, pl, ft⟩ hbad hst hcn
    simp only at hst hcn
    subst hst hcn
    simp [loopIters]
  | cons t ts ih =>
    rintro ⟨q, c, ne, st, cn, v, pc, pl, ft⟩ hbad hst hcn
    simp only at hst hcn
    subst hst hcn
    have hbt : playsOk t = false := hbad t (by simp)
    simp only [loopIters, hbt, Bool.and_false, Bool.false_and, Bool.if_false_left]
    have := ih (MP.mk ts (Option.some t) true false true v pc pl (ft ++ [t]))
      (fun u hu => hbad u (by simp [hu])) rfl rfl
    simpa [List.append_assoc] using this

/-- The current slot is changed by a loop run only by being overwritten
with a popped track. -/
lemma loopIters_current (playsOk : Track → Bool) (ts : List Track) :
    ∀ s : MP, (loopIters playsOk ts s).current = s.current ∨
      ∃ t ∈ ts, (loopIters playsOk ts s).current = Option.some t := by
  induction ts with
  | nil =>
    rintro ⟨q, c, ne, st, cn, v, pc, pl, ft⟩
    simp [loopIters]
  | cons t ts ih =>
    rintro ⟨q, c, ne, st, cn, v, pc, pl, ft⟩
    simp only [loopIters]
    by_cases hcnd : (cn && !st && playsOk t) = true
    · rw [if_pos hcnd]
      exact Or.inr ⟨t, by simp, rfl⟩
    · rw [if_neg hcnd]
      rcases ih (MP.mk ts (Option.some t) true st cn v pc pl (ft ++ [t])) with h | ⟨u, hu, h⟩
      · exact Or.inr ⟨t, by simp, h⟩
      · exact Or.inr ⟨u, by simp [hu], h⟩

/-- Same fact for a resumption at line 252. -/
lemma runFrom258_current (playsOk : Track → Bool) (s : MP) :
    (runFrom258 playsOk s).current = s.current ∨
    ∃ t ∈ s.queue, (runFrom258 playsOk s).current = Option.some t := by
  obtain ⟨q, c, ne, st, cn, v, pc, pl, ft⟩ := s
  cases q with
  | nil =>
    simp only [runFrom258]
    by_cases hne : ne = true
    · subst hne
      simp [runFromTop, loopIters]
    · left
      cases ne
      · simp
      · exact absurd rfl hne
  | cons t rest =>
    simp only [runFrom258]
    by_cases hcnd : (cn && !st && playsOk t) = true
    · rw [if_pos hcnd]
      by_cases hne2 : ne = true
      · subst hne2
        simp only [if_pos rfl, runFromTop]
        rcases loopIters_current playsOk rest
          (MP.mk rest (Option.some t) true true cn v pc (pl ++ [t]) ft) with h | ⟨u, hu, h⟩
        · exact Or.inr ⟨t, by simp, h⟩
        · exact Or.inr ⟨u, by simp [hu], h⟩
      · cases ne
        · simp only [Bool.false_eq_true, if_false]
          exact Or.inr ⟨t, by simp, rfl⟩
        · exact absurd rfl hne2
    · rw [if_neg hcnd]
      simp only [runFromTop]
      rcases loopIters_current playsOk rest
        (MP.mk rest (Option.some t) true st cn v pc pl (ft ++ [t])) with h | ⟨u, hu, h⟩
      · exact Or.inr ⟨t, by simp, h⟩
      · exact Or.inr ⟨u, by simp [hu], h⟩

/-- Same fact for a scheduling of the loop task. -/
lemma wake_current (playsOk : Track → Bool) (s : MP) :
    (wake playsOk s).current = s.current ∨
    ∃ t ∈ s.queue, (wake playsOk s).current = Option.some t := by
  obtain ⟨q, c, ne, st, cn, v, pc, pl, ft⟩ := s
  cases ne
  · left; simp [wake]
  · cases pc
    · have hr := runFrom258_current playsOk (MP.mk q c true st cn v LoopPC.idleWaiting pl ft)
      simpa [wake] using hr
    · have hr := loopIters_current playsOk q (MP.mk q c true st cn v LoopPC.songWaiting pl ft)
      simpa [wake, runFromTop] using hr
    · left; simp [wake]
    · left; simp [wake]

/-- Scheduling the loop on an empty queue never touches the current slot. -/
lemma wake_empty_current (playsOk : Track → Bool) (s : MP) (hq : s.queue = []) :
    (wake playsOk s).current = s.current := by
  obtain ⟨q, c, ne, st, cn, v, pc, pl, ft⟩ := s
  simp only at hq
  subst hq
  cases pc <;> cases ne <;>
    simp [wake, runFrom258, runFromTop, loopIters]

/-- The idle-timeout transition of one registered player, seen through the
registry. -/
lemma lookupReg_botTimeout (g : Nat) (p : MP) :
    ∀ l : List (Nat × MP), lookupReg (BotState.mk l) g = Option.some p →
      lookupReg (botTimeout (BotState.mk l) g) g = Option.some (onTimeout p) := by
  intro l
  induction l with
  | nil => intro h; simp [lookupReg, lookupList] at h
  | cons e l ih =>
    intro h
    by_cases hg : e.1 = g
    · simp [lookupReg, botTimeout, lookupList, hg] at h ⊢
      rw [h]
    · simp [lookupReg, botTimeout, lookupList, hg] at h ⊢
      exact ih h

/-- Any sequence of `set_volume` calls keeps the volume inside `[0, 1]`
when it starts there. -/
lemma foldl_setVolume_bounds : ∀ (vs : List ℚ) (s : MP), 0 ≤ s.volume → s.volume ≤ 1 →
    0 ≤ (vs.foldl setVolume s).volume ∧ (vs.foldl setVolume s).volume ≤ 1 := by
  intro vs
  induction vs with
  | nil => intro s h0 h1; exact ⟨h0, h1⟩
  | cons v vs ih =>
    intro s h0 h1
    refine ih (setVolume s v) (le_max_left _ _) ?_
    exact max_le zero_le_one (min_le_left _ _)

/-! ### Claim theorems -/

/-- C1: the FIFO claim fails on the code — evaluation of the code at the
failing input.  Two `add_to_queue` calls complete, in order, on an idle
session (both observe `is_playing() == false`, the second one e.g. because
its resolution finished while the loop was still suspended, so the queue
holds both tracks and the event is set).  When the loop then runs, it pops
and streams track A; the line 309 wait falls through because the event set
at enqueue time was never cleared, the next iteration pops track B while A
is streaming, `voice_client.play` raises `ClientException` (already
playing), and the error handler discards track B.  Track B is never
played: the playback order is `[A]` with B reported failed — not
`[A, B]` as the claim states. -/
theorem enqueue_fifo_violated :
    c1AfterBoth.queue = [trackA, trackB] ∧ c1AfterBoth.streaming = false ∧
    c1Woken.played = [trackA] ∧ c1Woken.failedTracks = [trackB] ∧ c1Woken.queue = [] ∧
    c1Finished.played = [trackA] ∧ c1Finished.failedTracks = [trackB] ∧
    c1Finished.queue = [] ∧ c1Finished.pc = LoopPC.idleWaiting :=
  ⟨rfl, rfl, rfl, rfl, rfl, rfl, rfl, rfl, rfl⟩

/-- C2 counterexample: the idle timeout does terminate the session and
`cleanup` releases the sink and clears the queue, but the session is NOT
deregistered — nothing on the timeout path touches `bot.music_players`, so
the registry still maps guild 1 to the terminated player. -/
theorem idle_timeout_keeps_registration :
    lookupReg (botTimeout botSolo 1) 1 = Option.some (cleanupMP initMP) ∧
    (cleanupMP initMP).pc = LoopPC.terminated ∧
    (cleanupMP initMP).connected = false :=
  ⟨rfl, rfl, rfl⟩

/-- C2 (amended): when the idle deadline elapses for a registered session
that is suspended in the idle wait with an empty queue, the session
transitions to Terminated exactly once (a second timeout is a no-op), and
the cleanup releases the Connection Sink and clears the queue — but the
session stays in the registry; deregistration happens separately, via the
periodic `check_voice_connections` sweep (or an explicit `leave`), which
removes any disconnected player. -/
theorem idle_timeout_cleanup_amended (b : BotState) (g : Nat) (p : MP)
    (g2 : Nat) (q2 : MP)
    (hreg : lookupReg b g = Option.some p)
    (hpc : p.pc = LoopPC.idleWaiting)
    (hq : p.queue = [])
    (hq2 : q2.connected = false) :
    lookupReg (botTimeout b g) g = Option.some (cleanupMP p) ∧
    (cleanupMP p).pc = LoopPC.terminated ∧ (cleanupMP p).queue = [] ∧
    (cleanupMP p).connected = false ∧ (cleanupMP p).streaming = false ∧
    onTimeout (cleanupMP p) = cleanupMP p ∧
    lookupReg (checkVoiceConnections (BotState.mk [(g2, q2)])) g2 = Option.none := by
  obtain ⟨l⟩ := b
  have h1 := lookupReg_botTimeout g p l hreg
  rw [onTimeout, if_pos hpc] at h1
  refine ⟨h1, rfl, rfl, rfl, rfl, ?_, ?_⟩
  · rw [onTimeout]
    simp [cleanupMP]
  · simp [lookupReg, checkVoiceConnections, List.filter, lookupList, hq2]

/-- C2 witness: the amended theorem applied to the one-session registry. -/
theorem idle_timeout_cleanup_amended_witness :
    lookupReg (botTimeout botSolo 1) 1 = Option.some (cleanupMP initMP) ∧
    (cleanupMP initMP).pc = LoopPC.terminated ∧ (cleanupMP initMP).queue = [] ∧
    (cleanupMP initMP).connected = false ∧ (cleanupMP initMP).streaming = false ∧
    onTimeout (cleanupMP initMP) = cleanupMP initMP ∧
    lookupReg (checkVoiceConnections (BotState.mk [(2, cleanupMP initMP)])) 2 = Option.none :=
  idle_timeout_cleanup_amended botSolo 1 initMP 2 (cleanupMP initMP) rfl rfl rfl rfl

/-- C3 (amended): on any session whose loop is suspended at one of its
event waits — not terminated and not mid-iteration inside the play-time
resolution of a popped track — (with the always-true reachability facts
that a session suspended in the end-of-song wait is streaming and that a
streaming session has a voice client), the `stop` command leaves the
session idle: empty queue, no active stream, the loop suspended in the
idle wait — and it neither terminates the session nor releases its voice
connection.  The mid-resolution exclusion is forced by the counterexample
`stop_during_resolution_leaves_streaming` below. -/
theorem stop_results_idle_empty (playsOk : Track → Bool) (s : MP)
    (hterm : s.pc ≠ LoopPC.terminated)
    (hres : s.pc ≠ LoopPC.resolving)
    (hsw : s.pc = LoopPC.songWaiting → s.streaming = true)
    (hsc : s.streaming = true → s.connected = true) :
    (onStop playsOk s).queue = [] ∧ (onStop playsOk s).streaming = false ∧
    (onStop playsOk s).pc = LoopPC.idleWaiting ∧
    (onStop playsOk s).connected = s.connected := by
  obtain ⟨q, c, ne, st, cn, v, pc, pl, ft⟩ := s
  cases pc <;> cases st <;> cases ne <;> cases cn <;>
    simp_all [onStop, stopMut, wake, runFrom258, runFromTop, loopIters]

/-- C3 witness: stopping a concrete playing session. -/
theorem stop_results_idle_empty_witness :
    (onStop anyPlays c3Playing).queue = [] ∧ (onStop anyPlays c3Playing).streaming = false ∧
    (onStop anyPlays c3Playing).pc = LoopPC.idleWaiting ∧
    (onStop anyPlays c3Playing).connected = c3Playing.connected :=
  stop_results_idle_empty anyPlays c3Playing (by decide) (by decide) (by decide) (by decide)

/-- C3 counterexample: `stop` issued while the loop is suspended inside
the play-time resolution (line 270) of an already-popped track does not
halt that track.  The queue is already empty and `is_playing()` is false,
so `stop` (lines 392-397) clears nothing and skips `voice_client.stop()`;
when the resolution completes, `voice_client.play` starts the track — the
session is streaming after the completed stop, refuting "Stop always
results in Idle with no active stream, regardless of prior state (except
Terminated)". -/
theorem stop_during_resolution_leaves_streaming :
    c3Resolving.streaming = false ∧ c3Resolving.queue = [] ∧
    c3Resolving.pc = LoopPC.resolving ∧
    c3AfterStop.queue = [] ∧ c3AfterStop.streaming = false ∧
    c3AfterStop.pc = LoopPC.resolving ∧
    c3AfterResolve.streaming = true ∧ c3AfterResolve.played = [trackA] ∧
    c3AfterResolve.current = Option.some trackA :=
  ⟨rfl, rfl, rfl, rfl, rfl, rfl, rfl, rfl, rfl⟩

/-- C4: skipping while playing with a playable track still queued halts the
current stream and advances to that track; skipping while playing with an
empty queue halts the stream and goes to the idle wait; skipping while
nothing is playing changes no state and returns the explicit
"nothing to skip" rejection of the command handler (bot.py lines 302-316)
rather than being silently dropped. -/
theorem skip_playing_advances_idle_rejects (playsOk : Track → Bool)
    (s1 s2 s3 : MP) (t : Track) (rest : List Track)
    (h1pc : s1.pc = LoopPC.songWaiting) (h1st : s1.streaming = true)
    (h1cn : s1.connected = true) (h1q : s1.queue = t :: rest) (h1ok : playsOk t = true)
    (h2pc : s2.pc = LoopPC.songWaiting) (h2st : s2.streaming = true)
    (h2cn : s2.connected = true) (h2q : s2.queue = [])
    (h3st : s3.streaming = false) :
    (skipCommand playsOk s1).2 = SkipOutcome.skipped ∧
    (skipCommand playsOk s1).1.current = Option.some t ∧
    (skipCommand playsOk s1).1.queue = rest ∧
    (skipCommand playsOk s1).1.streaming = true ∧
    (skipCommand playsOk s1).1.played = s1.played ++ [t] ∧
    (skipCommand playsOk s2).2 = SkipOutcome.skipped ∧
    (skipCommand playsOk s2).1.pc = LoopPC.idleWaiting ∧
    (skipCommand playsOk s2).1.streaming = false ∧
    (skipCommand playsOk s2).1.queue = [] ∧
    skipCommand playsOk s3 = (s3, SkipOutcome.nothingToSkip) := by
  obtain ⟨q1, c1, ne1, st1, cn1, v1, pc1, pl1, ft1⟩ := s1
  obtain ⟨q2, c2, ne2, st2, cn2, v2, pc2, pl2, ft2⟩ := s2
  obtain ⟨q3, c3, ne3, st3, cn3, v3, pc3, pl3, ft3⟩ := s3
  simp only at h1pc h1st h1cn h1q h2pc h2st h2cn h2q h3st
  subst h1pc h1st h1cn h1q h2pc h2st h2cn h2q h3st
  simp [skipCommand, wake, runFromTop, loopIters, h1ok]

/-- C4 witness: skipping the concrete playing sessions and the idle one. -/
theorem skip_playing_advances_idle_rejects_witness :
    (skipCommand anyPlays c4Playing1).2 = SkipOutcome.skipped ∧
    (skipCommand anyPlays c4Playing1).1.current = Option.some trackB ∧
    (skipCommand anyPlays c4Playing1).1.queue = [] ∧
    (skipCommand anyPlays c4Playing1).1.streaming = true ∧
    (skipCommand anyPlays c4Playing1).1.played = c4Playing1.played ++ [trackB] ∧
    (skipCommand anyPlays c4Playing2).2 = SkipOutcome.skipped ∧
    (skipCommand anyPlays c4Playing2).1.pc = LoopPC.idleWaiting ∧
    (skipCommand anyPlays c4Playing2).1.streaming = false ∧
    (skipCommand anyPlays c4Playing2).1.queue = [] ∧
    skipCommand anyPlays initMP = (initMP, SkipOutcome.nothingToSkip) :=
  skip_playing_advances_idle_rejects anyPlays c4Playing1 c4Playing2 initMP trackB []
    rfl rfl rfl rfl rfl rfl rfl rfl rfl rfl

/-- C5: when the resolution of a query fails (an extraction exception, or a
falsy result), `add_to_queue` returns a descriptive error and the session
state is exactly the state before the call: nothing is appended and no
field changes (atomicity of enqueue on resolution error). -/
theorem enqueue_error_atomic (s : MP) (query req e : String) :
    (addToQueue s query req (Except.error e)).1 = s ∧
    (∃ msg : String, (addToQueue s query req (Except.error e)).2 = Except.error msg) ∧
    (addToQueue s query req (Except.ok Option.none)).1 = s ∧
    (∃ msg : String, (addToQueue s query req (Except.ok Option.none)).2 = Except.error msg) :=
  ⟨rfl, ⟨_, rfl⟩, rfl, ⟨_, rfl⟩⟩

/-- C6: when the loop is woken on a queue whose tracks all fail to start,
every track is popped, reported to the tenant-visible sink and discarded
(none is re-queued and none is played) — one loop iteration per track — and
the loop ends suspended back in the idle wait instead of retrying any
track. -/
theorem failing_tracks_drain_to_idle (playsOk : Track → Bool) (s : MP) (ts : List Track)
    (hbad : ∀ t ∈ ts, playsOk t = false)
    (hq : s.queue = ts) (hpc : s.pc = LoopPC.idleWaiting) (hne : s.nextEv = true)
    (hst : s.streaming = false) (hcn : s.connected = true) :
    (wake playsOk s).queue = [] ∧
    (wake playsOk s).pc = LoopPC.idleWaiting ∧
    (wake playsOk s).failedTracks = s.failedTracks ++ ts ∧
    (wake playsOk s).played = s.played ∧
    (wake playsOk s).streaming = false := by
  obtain ⟨q, c, ne, st, cn, v, pc, pl, ft⟩ := s
  simp only at hq hpc hne hst hcn
  subst hq hpc hne hst hcn
  cases q with
  | nil =>
    simp [wake, runFrom258, runFromTop, loopIters]
  | cons t rest =>
    have hbt : playsOk t = false := hbad t (by simp)
    simp only [wake, runFrom258, if_pos rfl, hbt, Bool.and_false, Bool.false_and,
      Bool.if_false_left, runFromTop]
    have := loopIters_allFail playsOk rest
      (MP.mk rest (Option.some t) true false true v LoopPC.idleWaiting pl (ft ++ [t]))
      (fun u hu => hbad u (by simp [hu])) rfl rfl
    simpa [List.append_assoc] using this

/-- C6 witness: one failing track drains. -/
theorem failing_tracks_drain_to_idle_witness :
    (wake noPlays c6Start).queue = [] ∧
    (wake noPlays c6Start).pc = LoopPC.idleWaiting ∧
    (wake noPlays c6Start).failedTracks = c6Start.failedTracks ++ [trackA] ∧
    (wake noPlays c6Start).played = c6Start.played ∧
    (wake noPlays c6Start).streaming = false :=
  failing_tracks_drain_to_idle noPlays c6Start [trackA] (fun t _ => rfl) rfl rfl rfl rfl rfl

/-- C7 counterexample: `self.current` is never cleared.  After a playable
track is enqueued and the loop streams it, `current` holds that track; the
`stop` command halts the stream and drains the loop back to the idle wait,
yet `current` still refers to the track although nothing is streaming —
refuting "current non-empty implies the sink is streaming that track". -/
theorem current_stale_after_stop :
    c7Playing.current = Option.some trackA ∧ c7Playing.streaming = true ∧
    c7Stopped.current = Option.some trackA ∧ c7Stopped.streaming = false ∧
    c7Stopped.pc = LoopPC.idleWaiting :=
  ⟨rfl, rfl, rfl, rfl, rfl⟩

/-- C7 (amended): there is at most one current track (the slot is a single
option), and the slot is only ever overwritten with a track the loop pops
from the queue: `stop` never changes it (so after a stop it retains the
previously playing track even though nothing is streaming any more), and a
song finishing either leaves it unchanged or replaces it with a popped
queue element.  `current` being non-empty does NOT imply the sink is
streaming that track. -/
theorem current_slot_amended (playsOk : Track → Bool) (s : MP) :
    (onStop playsOk s).current = s.current ∧
    ((onFinish playsOk s).current = s.current ∨
      ∃ t ∈ s.queue, (onFinish playsOk s).current = Option.some t) := by
  constructor
  · have h1 : (stopMut s).current = s.current := by
      obtain ⟨q, c, ne, st, cn, v, pc, pl, ft⟩ := s
      simp only [stopMut]
      by_cases hc : (cn && st) = true <;> simp [hc]
    have h2 : (stopMut s).queue = [] := by
      obtain ⟨q, c, ne, st, cn, v, pc, pl, ft⟩ := s
      simp only [stopMut]
      by_cases hc : (cn && st) = true <;> simp [hc]
    rw [onStop, wake_empty_current playsOk _ h2, h1]
  · have hwc := wake_current playsOk (songFinished s)
    simpa [onFinish, songFinished] using hwc

/-- C8 counterexample: the enqueue path does not enforce a non-negative
duration — a resolver report with numeric duration -5 is accepted, the
track is appended to the queue, and its `duration` field is -5, refuting
"durationSeconds >= 0 ... for every possible resolver output". -/
theorem track_duration_negative :
    (addToQueue initMP strQ strReqA (Except.ok (Option.some rawNeg))).2 =
      Except.ok (mkSongInfo rawNeg strReqA) ∧
    (addToQueue initMP strQ strReqA (Except.ok (Option.some rawNeg))).1.queue =
      [mkSongInfo rawNeg strReqA] ∧
    (mkSongInfo rawNeg strReqA).duration < 0 :=
  ⟨rfl, rfl, by decide⟩

/-- C8 (amended): every track constructed by the enqueue path has
`duration >= 0` provided the resolver does not report a negative number —
directly as an int or float, or as a numeric string over the ASCII
alphabet, on which the modelled parser is exactly Python's `int()`
(whitespace padding and underscore grouping included; strings with
non-ASCII numerals are outside the model and excluded by the
hypothesis): a missing duration and an unparsable string default to 0;
and the title always defaults to the sentinel "Unknown title" instead of
being absent.  A negative resolver duration — e.g. -5, or the string
" -5", which Python parses — passes through unclamped. -/
theorem track_duration_nonneg_amended (d : RawData) (req : String)
    (h : durationSourceNonNeg d.duration = true) :
    0 ≤ (mkSongInfo d req).duration ∧
    (d.title = Option.none → (mkSongInfo d req).title = strUnknownTitle) := by
  obtain ⟨u, ti, du, w, th⟩ := d
  constructor
  · cases du with
    | noneVal => simp [mkSongInfo, processDuration]
    | intVal n =>
      simp [durationSourceNonNeg] at h
      simpa [mkSongInfo, processDuration] using h
    | floatVal q =>
      simp [durationSourceNonNeg] at h
      simpa [mkSongInfo, processDuration] using h
    | strVal sv =>
      simp [durationSourceNonNeg] at h
      simpa [mkSongInfo, processDuration] using h.2
  · intro hti
    simp only at hti
    subst hti
    simp [mkSongInfo]

/-- C8 witness: a non-negative resolver duration with an absent title. -/
theorem track_duration_nonneg_amended_witness :
    0 ≤ (mkSongInfo rawPos strReqA).duration ∧
    (rawPos.title = Option.none → (mkSongInfo rawPos strReqA).title = strUnknownTitle) :=
  track_duration_nonneg_amended rawPos strReqA (by decide)

/-- C9: `cleanup` is idempotent — applying it twice gives exactly the state
after applying it once (so invoking it on an already-terminated session is
a no-op that does not fail), and the cleaned state has an empty queue, a
cancelled loop and a released voice connection. -/
theorem cleanup_idempotent (s : MP) :
    cleanupMP (cleanupMP s) = cleanupMP s ∧ (cleanupMP s).queue = [] ∧
    (cleanupMP s).pc = LoopPC.terminated ∧ (cleanupMP s).connected = false ∧
    (cleanupMP s).streaming = false := by
  obtain ⟨q, c, ne, st, cn, v, pc, pl, ft⟩ := s
  simp [cleanupMP]

/-- C10: `set_volume` stores exactly `max(0.0, min(1.0, v))` — out-of-range
inputs are silently clamped, never rejected — so the stored volume is
always in `[0, 1]`, and after any sequence of `set_volume` calls on a fresh
player the volume field lies in `[0, 1]`. -/
theorem set_volume_clamps (s : MP) (v : ℚ) (vs : List ℚ) :
    (setVolume s v).volume = max 0 (min 1 v) ∧
    0 ≤ (setVolume s v).volume ∧ (setVolume s v).volume ≤ 1 ∧
    0 ≤ (vs.foldl setVolume initMP).volume ∧ (vs.foldl setVolume initMP).volume ≤ 1 := by
  have hb := foldl_setVolume_bounds vs initMP (by norm_num [initMP]) (by norm_num [initMP])
  exact ⟨rfl, le_max_left _ _, max_le zero_le_one (min_le_left _ _), hb.1, hb.2⟩

/-- Parser fidelity probes: `pyToInt` agrees with Python `int()` on the
whitespace-padded and underscore-grouped numerals the code can receive,
so a duration string like " -5" is kept negative by the code and is
rejected by `durationSourceNonNeg`. -/
lemma pyToInt_probes :
    pyToInt strWsNeg = Option.some (-5) ∧
    pyToInt strGrouped = Option.some 10 ∧
    processDuration (PyDuration.strVal strWsNeg) = -5 ∧
    durationSourceNonNeg (PyDuration.strVal strWsNeg) = false ∧
    durationSourceNonNeg (PyDuration.strVal strGrouped) = true := by
  exact ⟨by decide, by decide, by decide, by decide, by decide⟩

end DCBot
